import Mathlib

/-!
Shallow embedding of the two Deno HTTP handlers in
`supabase/functions/track-oracle-result/index.ts` (the track-result writer and
the profile reader) together with the row shapes of the three tables created by
`supabase/migrations/20260224082222_001_create_collections_schema.sql`.

The database is modelled as explicit lists of rows; each handler is a pure
function from an environment, a database state and a request to a result
carrying the HTTP status, the new database state and the trace of database
operations issued.  JavaScript number quirks that the handlers can hit
(`Math.max` with an `undefined` score, `Math.floor` over binary64 division in
the completion percentage) are modelled exactly.
-/

namespace Unc9

/-- JavaScript numeric values that can flow into `highest_score`:
an actual number, `NaN`, or `undefined` (a destructured field that was
absent from the request body). -/
inductive JsNum where
  | num (n : Int)
  | nan
  | undefined
deriving DecidableEq, Repr

/-- `Math.max` on the values above: any non-number operand yields `NaN`
(`undefined` is coerced to `NaN` first). -/
def jsMax : JsNum → JsNum → JsNum
  | .num a, .num b => .num (max a b)
  | _, _ => .nan

/-- The `score` field of the parsed body as a JavaScript value. -/
def scoreToJs : Option Int → JsNum
  | some n => .num n
  | none => .undefined

/-- Row of `divine_words` (id, word text, rarity tier). -/
structure DivineWord where
  id : Nat
  word : String
  rarity : String
deriving DecidableEq, Repr

/-- Row of `user_collections`. -/
structure CollectionEntry where
  id : Nat
  user_id : Nat
  divine_word_id : Nat
  found_count : Int
  first_found_at : Nat
  updated_at : Nat
deriving DecidableEq, Repr

/-- Row of `user_statistics`. -/
structure StatsRow where
  id : Nat
  user_id : Nat
  total_spins : Int
  total_points : Int
  divine_count : Int
  reality_count : Int
  highest_score : JsNum
  last_spin_at : Option Nat
  created_at : Nat
  updated_at : Nat
deriving DecidableEq, Repr

/-- The database: the three tables, plus a counter supplying fresh row ids
(`gen_random_uuid` in the schema). -/
structure DB where
  divine_words : List DivineWord
  user_collections : List CollectionEntry
  user_statistics : List StatsRow
  next_id : Nat
deriving DecidableEq, Repr

/-- HTTP method, as far as the handlers inspect it. -/
inductive Method where
  | options
  | post
  | get
deriving DecidableEq, Repr

/-- A request to the track-result handler: method, the `Authorization`
header, and the three fields destructured from the JSON body (`none`
models an absent field). -/
structure TrackRequest where
  method : Method
  authHeader : Option String
  body_type : Option String
  body_word : Option String
  body_score : Option Int
deriving DecidableEq, Repr

/-- A request to the profile reader (it reads no body). -/
structure ProfileRequest where
  method : Method
  authHeader : Option String
deriving DecidableEq, Repr

/-- Environment: the two configuration variables and the outcome of
`client.auth.getUser` on this request's token (`some uid` = authenticated
user, `none` = rejected credential). -/
structure Env where
  supabaseUrl : Option String
  supabaseKey : Option String
  authUser : Option Nat
deriving DecidableEq, Repr

/-- Database / identity-provider operations, for tracing which calls a
request issues. -/
inductive DbOp where
  | authGetUser
  | catalogSelect
  | ledgerSelect
  | ledgerUpdate
  | ledgerInsert
  | statsSelect
  | statsUpdate
  | statsInsert
deriving DecidableEq, Repr

/-- Result of running the track-result handler: HTTP status, the database
afterwards, and the trace of operations issued. -/
structure HandlerResult where
  status : Nat
  db : DB
  ops : List DbOp
deriving DecidableEq, Repr

/-- Intermediate result of one write phase: the database and the operations
that phase issued. -/
structure StepOut where
  db : DB
  ops : List DbOp
deriving DecidableEq, Repr

/-- JavaScript falsiness of a destructured string field: `undefined` or the
empty string (`!type`, `!word` in the source). -/
def strFalsy (o : Option String) : Prop :=
  o = none ∨ o = some ""

instance (o : Option String) : Decidable (strFalsy o) := by
  unfold strFalsy; infer_instance

/-- Catalog lookup by exact word text
(`from("divine_words").select("id").eq("word", word).maybeSingle()`). -/
def findWord (db : DB) (w : String) : Option DivineWord :=
  db.divine_words.find? (fun dw => dw.word == w)

/-- Ledger lookup for one user and one catalog word
(`from("user_collections")....eq("user_id", ...).eq("divine_word_id", ...)`). -/
def findEntry (db : DB) (uid wid : Nat) : Option CollectionEntry :=
  db.user_collections.find? (fun c => c.user_id == uid && c.divine_word_id == wid)

/-- Statistics lookup for one user
(`from("user_statistics").select("*").eq("user_id", ...)`). -/
def findStats (db : DB) (uid : Nat) : Option StatsRow :=
  db.user_statistics.find? (fun s => s.user_id == uid)

/-- `type === "DIVINE" ? 20 : type === "REALITY" ? 5 : 1` -/
def pointsFor (ty : String) : Int :=
  if ty = "DIVINE" then 20 else if ty = "REALITY" then 5 else 1

/-- `type === "DIVINE" ? 1 : 0` -/
def divineIncrementFor (ty : String) : Int :=
  if ty = "DIVINE" then 1 else 0

/-- `type === "REALITY" ? 1 : 0` -/
def realityIncrementFor (ty : String) : Int :=
  if ty = "REALITY" then 1 else 0

/-- The "update or insert user collection" phase of the track-result handler
(source lines 83-107), run when the catalog lookup found a word. -/
def ledgerStep (db : DB) (uid : Nat) (dw : DivineWord) (now : Nat) : StepOut :=
  match findEntry db uid dw.id with
  | some existing =>
      { db := { db with
          user_collections := db.user_collections.map (fun c =>
            if c.id = existing.id then
              { c with found_count := c.found_count + 1, updated_at := now }
            else c) },
        ops := [DbOp.ledgerSelect, DbOp.ledgerUpdate] }
  | none =>
      { db := { db with
          user_collections := db.user_collections ++
            [{ id := db.next_id, user_id := uid, divine_word_id := dw.id,
               found_count := 1, first_found_at := now, updated_at := now }],
          next_id := db.next_id + 1 },
        ops := [DbOp.ledgerSelect, DbOp.ledgerInsert] }

/-- The "update user statistics" phase of the track-result handler
(source lines 111-146). -/
def statsStep (db : DB) (uid : Nat) (ty : String) (score : Option Int)
    (now : Nat) : StepOut :=
  let points := pointsFor ty
  let divineIncrement := divineIncrementFor ty
  let realityIncrement := realityIncrementFor ty
  match findStats db uid with
  | some stats =>
      { db := { db with
          user_statistics := db.user_statistics.map (fun s =>
            if s.id = stats.id then
              { s with
                total_spins := s.total_spins + 1,
                total_points := s.total_points + points,
                divine_count := s.divine_count + divineIncrement,
                reality_count := s.reality_count + realityIncrement,
                highest_score := jsMax s.highest_score (scoreToJs score),
                last_spin_at := some now,
                updated_at := now }
            else s) },
        ops := [DbOp.statsSelect, DbOp.statsUpdate] }
  | none =>
      { db := { db with
          user_statistics := db.user_statistics ++
            [{ id := db.next_id, user_id := uid, total_spins := 1,
               total_points := points, divine_count := divineIncrement,
               reality_count := realityIncrement,
               highest_score := scoreToJs score, last_spin_at := some now,
               created_at := now, updated_at := now }],
          next_id := db.next_id + 1 },
        ops := [DbOp.statsSelect, DbOp.statsInsert] }

/-- The track-result handler (`Deno.serve`, source lines 16-162).
`now` models `new Date()`. -/
def trackOracleResult (env : Env) (db : DB) (req : TrackRequest)
    (now : Nat) : HandlerResult :=
  if req.method = Method.options then
    { status := 200, db := db, ops := [] }
  else
    match req.authHeader with
    | none => { status := 401, db := db, ops := [] }
    | some _ =>
      if env.supabaseUrl = none ∨ env.supabaseKey = none then
        { status := 500, db := db, ops := [] }
      else
        match env.authUser with
        | none => { status := 401, db := db, ops := [DbOp.authGetUser] }
        | some uid =>
          if strFalsy req.body_type ∨ strFalsy req.body_word then
            { status := 400, db := db, ops := [DbOp.authGetUser] }
          else
            let ty := req.body_type.getD ""
            let w := req.body_word.getD ""
            let divineWord := findWord db w
            if divineWord = none ∧ ty ≠ "VOID" then
              { status := 404, db := db,
                ops := [DbOp.authGetUser, DbOp.catalogSelect] }
            else
              let s1 := match divineWord with
                | some dw => ledgerStep db uid dw now
                | none => { db := db, ops := [] }
              let s2 := statsStep s1.db uid ty req.body_score now
              { status := 200, db := s2.db,
                ops := [DbOp.authGetUser, DbOp.catalogSelect] ++ s1.ops ++ s2.ops }

/-! ### Exact model of the binary64 arithmetic in the completion percentage

The profile reader computes
`Math.floor((collectedWords / totalWords) * 100)` in JavaScript numbers
(IEEE-754 binary64).  Both counts are small integers, hence exact doubles;
the division and the multiplication each round their exact rational result
to the nearest double (ties to even).  A nonnegative double in the normal
range is a dyadic rational `m / 2 ^ k` with a 53-bit significand; we model
the two roundings exactly over `Nat`, representing the exact intermediate
values as numerator/denominator pairs. -/

/-- Number of binary digits of `n` (`0` has none).  Fuel-bounded structural
recursion; fuel `400` covers every value in the completion computation. -/
def bitsAux : ℕ → ℕ → ℕ
  | 0, _ => 0
  | fuel + 1, n => if n = 0 then 0 else bitsAux fuel (n / 2) + 1

/-- Number of binary digits of `n`. -/
def bits (n : ℕ) : ℕ := bitsAux 400 n

/-- Round the nonnegative rational `a / b` (with `b > 0`) to the nearest
integer, ties to even. -/
def roundHalfEvenDiv (a b : ℕ) : ℕ :=
  let q := a / b
  let r := a % b
  if 2 * r < b then q
  else if b < 2 * r then q + 1
  else if q % 2 = 0 then q else q + 1

/-- The binary64 value nearest to the positive rational `n / d`
(round to nearest, ties to even, 53-bit significand), returned as a
numerator/denominator pair whose denominator is a power of two.
The exponent of `n / d` is recovered from the integer part of
`n * 2 ^ 120 / d`, which is exact for every value in the completion
computation. -/
def roundDoubleDiv (n d : ℕ) : ℕ × ℕ :=
  if n = 0 ∨ d = 0 then (0, 1)
  else
    let e : ℤ := (bits (n * 2 ^ 120 / d) : ℤ) - 121
    let s : ℤ := 52 - e
    if 0 ≤ s then
      (roundHalfEvenDiv (n * 2 ^ s.toNat) d, 2 ^ s.toNat)
    else
      (roundHalfEvenDiv n (d * 2 ^ (-s).toNat) * 2 ^ (-s).toNat, 1)

/-- `totalWords > 0 ? Math.floor((collectedWords / totalWords) * 100) : 0`
(source line 245): the division and the multiplication by `100` are
performed in binary64, then `Math.floor` truncates the nonnegative result. -/
def completionPercentJs (collected total : ℕ) : ℤ :=
  if 0 < total then
    let d1 := roundDoubleDiv collected total
    let d2 := roundDoubleDiv (d1.1 * 100) d1.2
    ((d2.1 / d2.2 : ℕ) : ℤ)
  else 0

/-! ### The profile reader -/

/-- The `stats` object of the profile response: the stored row's public
fields, or the zeroed defaults when no row exists yet (source lines
253-260). -/
structure StatsOut where
  total_spins : Int
  total_points : Int
  divine_count : Int
  reality_count : Int
  highest_score : JsNum
  last_spin_at : Option Nat
deriving DecidableEq, Repr

/-- Zeroed default statistics payload. -/
def defaultStatsOut : StatsOut :=
  { total_spins := 0, total_points := 0, divine_count := 0,
    reality_count := 0, highest_score := .num 0, last_spin_at := none }

/-- Projection of a stored statistics row to the response payload. -/
def statsOutOf (s : StatsRow) : StatsOut :=
  { total_spins := s.total_spins, total_points := s.total_points,
    divine_count := s.divine_count, reality_count := s.reality_count,
    highest_score := s.highest_score, last_spin_at := s.last_spin_at }

/-- The rarity joined onto a collection entry
(`divine_words ( id, word, rarity )` in the select). -/
def rarityOf (db : DB) (c : CollectionEntry) : String :=
  ((db.divine_words.find? (fun dw => dw.id == c.divine_word_id)).map
    (fun dw => dw.rarity)).getD ""

/-- The successful profile response body, as far as the handler computes it
(source lines 243-272). -/
structure ProfilePayload where
  stats : StatsOut
  collectionsTotal : Nat
  ssr : Nat
  sr : Nat
  items : List CollectionEntry
  completionPercent : Int
  completionCollected : Nat
  completionTotal : Nat
deriving DecidableEq, Repr

/-- Result of the profile reader: HTTP status, the trace of operations
issued, and the payload on success (the reader never writes). -/
structure ProfileResult where
  status : Nat
  ops : List DbOp
  payload : Option ProfilePayload
deriving DecidableEq, Repr

/-- The profile reader (`Deno.serve`, source lines 172-282). -/
def getProfile (env : Env) (db : DB) (req : ProfileRequest) : ProfileResult :=
  if req.method = Method.options then
    { status := 200, ops := [], payload := none }
  else
    match req.authHeader with
    | none => { status := 401, ops := [], payload := none }
    | some _ =>
      if env.supabaseUrl = none ∨ env.supabaseKey = none then
        { status := 500, ops := [], payload := none }
      else
        match env.authUser with
        | none => { status := 401, ops := [DbOp.authGetUser], payload := none }
        | some uid =>
          let stats := findStats db uid
          let collections :=
            (db.user_collections.filter (fun c => c.user_id == uid)).mergeSort
              (fun a b => b.updated_at ≤ a.updated_at)
          let allWords := db.divine_words
          let totalWords := allWords.length
          let collectedWords := collections.length
          let completionPercent := completionPercentJs collectedWords totalWords
          let ssrCollections := collections.filter (fun c => rarityOf db c == "SSR")
          let srCollections := collections.filter (fun c => rarityOf db c == "SR")
          { status := 200,
            ops := [DbOp.authGetUser, DbOp.statsSelect, DbOp.ledgerSelect,
                    DbOp.catalogSelect],
            payload := some
              { stats := (stats.map statsOutOf).getD defaultStatsOut,
                collectionsTotal := collectedWords,
                ssr := ssrCollections.length,
                sr := srCollections.length,
                items := collections,
                completionPercent := completionPercent,
                completionCollected := collectedWords,
                completionTotal := totalWords } }

/-! ### Views of the statistics table and basic lemmas -/

/-- `total_points` of a user's statistics row, `0` when the row does not
exist yet (the value a fresh row is seeded from). -/
def statsViewPoints (db : DB) (uid : Nat) : Int :=
  ((findStats db uid).map (fun s => s.total_points)).getD 0

/-- `total_spins` of a user's statistics row, `0` when absent. -/
def statsViewSpins (db : DB) (uid : Nat) : Int :=
  ((findStats db uid).map (fun s => s.total_spins)).getD 0

/-- `divine_count` of a user's statistics row, `0` when absent. -/
def statsViewDivine (db : DB) (uid : Nat) : Int :=
  ((findStats db uid).map (fun s => s.divine_count)).getD 0

/-- `reality_count` of a user's statistics row, `0` when absent. -/
def statsViewReality (db : DB) (uid : Nat) : Int :=
  ((findStats db uid).map (fun s => s.reality_count)).getD 0

/-- `highest_score` of a user's statistics row, `none` when absent. -/
def statsViewHS (db : DB) (uid : Nat) : Option JsNum :=
  (findStats db uid).map (fun s => s.highest_score)

/-- What one recorded spin with score value `j` turns the stored
`highest_score` into: `Math.max` with the old value when a row exists,
the seeded value itself otherwise. -/
def hsNext : Option JsNum → JsNum → JsNum
  | some h, j => jsMax h j
  | none, j => j

theorem find?_map_pres {α : Type} (p : α → Bool) (f : α → α) (l : List α)
    (h : ∀ a, p (f a) = p a) : (l.map f).find? p = (l.find? p).map f := by
  induction l with
  | nil => rfl
  | cons a t ih =>
    simp only [List.map_cons, List.find?_cons, h a]
    cases hp : p a <;> simp [hp, ih]

theorem statsStep_collections (db : DB) (uid : Nat) (ty : String)
    (sc : Option Int) (now : Nat) :
    (statsStep db uid ty sc now).db.user_collections = db.user_collections := by
  unfold statsStep
  cases findStats db uid <;> rfl

theorem statsStep_words (db : DB) (uid : Nat) (ty : String)
    (sc : Option Int) (now : Nat) :
    (statsStep db uid ty sc now).db.divine_words = db.divine_words := by
  unfold statsStep
  cases findStats db uid <;> rfl

theorem ledgerStep_stats (db : DB) (uid : Nat) (dw : DivineWord) (now : Nat) :
    (ledgerStep db uid dw now).db.user_statistics = db.user_statistics := by
  unfold ledgerStep
  cases findEntry db uid dw.id <;> rfl

theorem ledgerStep_words (db : DB) (uid : Nat) (dw : DivineWord) (now : Nat) :
    (ledgerStep db uid dw now).db.divine_words = db.divine_words := by
  unfold ledgerStep
  cases findEntry db uid dw.id <;> rfl

theorem findStats_congr {db1 db2 : DB} (uid : Nat)
    (h : db1.user_statistics = db2.user_statistics) :
    findStats db1 uid = findStats db2 uid := by
  unfold findStats; rw [h]

theorem findStats_statsStep (db : DB) (uid : Nat) (ty : String)
    (sc : Option Int) (now : Nat) :
    findStats (statsStep db uid ty sc now).db uid =
      match findStats db uid with
      | some stats => some { stats with
          total_spins := stats.total_spins + 1,
          total_points := stats.total_points + pointsFor ty,
          divine_count := stats.divine_count + divineIncrementFor ty,
          reality_count := stats.reality_count + realityIncrementFor ty,
          highest_score := jsMax stats.highest_score (scoreToJs sc),
          last_spin_at := some now,
          updated_at := now }
      | none => some
          { id := db.next_id, user_id := uid, total_spins := 1,
            total_points := pointsFor ty, divine_count := divineIncrementFor ty,
            reality_count := realityIncrementFor ty, highest_score := scoreToJs sc,
            last_spin_at := some now, created_at := now, updated_at := now } := by
  cases h : findStats db uid with
  | none =>
    unfold findStats at h
    simp only [statsStep, findStats, h]
    simp [List.find?_append, h]
  | some stats =>
    unfold findStats at h
    simp only [statsStep, findStats, h]
    rw [find?_map_pres _ _ _ (fun s => by by_cases hid : s.id = stats.id <;> simp [hid]),
      h]
    simp

theorem statsStep_views (db : DB) (uid : Nat) (ty : String)
    (sc : Option Int) (now : Nat) :
    statsViewPoints (statsStep db uid ty sc now).db uid
        = statsViewPoints db uid + pointsFor ty ∧
    statsViewSpins (statsStep db uid ty sc now).db uid
        = statsViewSpins db uid + 1 ∧
    statsViewDivine (statsStep db uid ty sc now).db uid
        = statsViewDivine db uid + divineIncrementFor ty ∧
    statsViewReality (statsStep db uid ty sc now).db uid
        = statsViewReality db uid + realityIncrementFor ty ∧
    statsViewHS (statsStep db uid ty sc now).db uid
        = some (hsNext (statsViewHS db uid) (scoreToJs sc)) := by
  have hfs := findStats_statsStep db uid ty sc now
  cases h : findStats db uid <;> rw [h] at hfs <;>
    simp [statsViewPoints, statsViewSpins, statsViewDivine, statsViewReality,
      statsViewHS, hfs, h, hsNext]

theorem findEntry_ledgerStep (db : DB) (uid : Nat) (dw : DivineWord)
    (now : Nat) :
    findEntry (ledgerStep db uid dw now).db uid dw.id =
      match findEntry db uid dw.id with
      | some c => some
          { c with found_count := c.found_count + 1, updated_at := now }
      | none => some
          { id := db.next_id, user_id := uid, divine_word_id := dw.id,
            found_count := 1, first_found_at := now, updated_at := now } := by
  cases h : findEntry db uid dw.id with
  | none =>
    unfold findEntry at h
    simp only [ledgerStep, findEntry, h]
    simp [List.find?_append, h]
  | some c =>
    unfold findEntry at h
    simp only [ledgerStep, findEntry, h]
    rw [find?_map_pres _ _ _ (fun s => by by_cases hid : s.id = c.id <;> simp [hid]),
      h]
    simp

/-- The track-result handler on the success path when the catalog lookup
found the word: it runs the ledger phase, then the statistics phase, and
responds 200. -/
theorem track_success_found (env : Env) (db : DB) (req : TrackRequest)
    (now : Nat) (uid : Nat) (a ty w : String) (dw : DivineWord)
    (hm : req.method ≠ Method.options)
    (ha : req.authHeader = some a)
    (hcfg : ¬(env.supabaseUrl = none ∨ env.supabaseKey = none))
    (hau : env.authUser = some uid)
    (hty : req.body_type = some ty) (hty2 : ty ≠ "")
    (hw : req.body_word = some w) (hw2 : w ≠ "")
    (hfw : findWord db w = some dw) :
    trackOracleResult env db req now =
      { status := 200,
        db := (statsStep (ledgerStep db uid dw now).db uid ty
                req.body_score now).db,
        ops := [DbOp.authGetUser, DbOp.catalogSelect] ++
          (ledgerStep db uid dw now).ops ++
          (statsStep (ledgerStep db uid dw now).db uid ty
            req.body_score now).ops } := by
  have hval : ¬(strFalsy req.body_type ∨ strFalsy req.body_word) := by
    simp [strFalsy, hty, hw, hty2, hw2]
  unfold trackOracleResult
  rw [if_neg hm, ha, if_neg hcfg, hau]
  simp only [if_neg hval, hty, hw, Option.getD_some, hfw]
  simp [strFalsy, hty2, hw2]

/-- The track-result handler on the success path when the word is absent
from the catalog but the spin type is `VOID`: the ledger phase is skipped
and only the statistics phase runs. -/
theorem track_success_void (env : Env) (db : DB) (req : TrackRequest)
    (now : Nat) (uid : Nat) (a w : String)
    (hm : req.method ≠ Method.options)
    (ha : req.authHeader = some a)
    (hcfg : ¬(env.supabaseUrl = none ∨ env.supabaseKey = none))
    (hau : env.authUser = some uid)
    (hty : req.body_type = some "VOID")
    (hw : req.body_word = some w) (hw2 : w ≠ "")
    (hfw : findWord db w = none) :
    trackOracleResult env db req now =
      { status := 200,
        db := (statsStep db uid "VOID" req.body_score now).db,
        ops := [DbOp.authGetUser, DbOp.catalogSelect] ++
          (statsStep db uid "VOID" req.body_score now).ops } := by
  have hval : ¬(strFalsy req.body_type ∨ strFalsy req.body_word) := by
    simp [strFalsy, hty, hw, hw2]
  unfold trackOracleResult
  rw [if_neg hm, ha, if_neg hcfg, hau]
  simp only [if_neg hval, hty, hw, Option.getD_some, hfw]
  simp [strFalsy, hw2]

/-- Inversion: a 200 response from the track-result handler (other than a
CORS preflight) means the request carried a credential, the server was
configured, the credential was accepted, both body fields were present and
non-empty, and the word was either in the catalog or the spin type was
`VOID`. -/
theorem track200_inv (env : Env) (db : DB) (req : TrackRequest) (now : Nat)
    (hm : req.method ≠ Method.options)
    (h2 : (trackOracleResult env db req now).status = 200) :
    (∃ a, req.authHeader = some a) ∧
    ¬(env.supabaseUrl = none ∨ env.supabaseKey = none) ∧
    (∃ ty, req.body_type = some ty ∧ ty ≠ "") ∧
    (∃ w, req.body_word = some w ∧ w ≠ "" ∧
      (findWord db w = none → req.body_type = some "VOID")) := by
  cases ha : req.authHeader with
  | none => simp [trackOracleResult, if_neg hm, ha] at h2
  | some a =>
    by_cases hcfg : env.supabaseUrl = none ∨ env.supabaseKey = none
    · simp [trackOracleResult, if_neg hm, ha, if_pos hcfg] at h2
    · cases hau : env.authUser with
      | none =>
        simp [trackOracleResult, if_neg hm, ha, if_neg hcfg, hau] at h2
      | some uid =>
        by_cases hval : strFalsy req.body_type ∨ strFalsy req.body_word
        · simp [trackOracleResult, if_neg hm, ha, if_neg hcfg, hau,
            if_pos hval] at h2
        · by_cases h404 :
            findWord db (req.body_word.getD "") = none ∧
              req.body_type.getD "" ≠ "VOID"
          · simp [trackOracleResult, if_neg hm, ha, if_neg hcfg, hau,
              if_neg hval, if_pos h404] at h2
          · have hA : ¬ strFalsy req.body_type := fun h => hval (Or.inl h)
            have hB : ¬ strFalsy req.body_word := fun h => hval (Or.inr h)
            obtain ⟨ty, hty⟩ : ∃ ty, req.body_type = some ty := by
              cases hbt : req.body_type with
              | none => exact absurd (Or.inl hbt) hA
              | some t => exact ⟨t, rfl⟩
            obtain ⟨w, hw⟩ : ∃ w, req.body_word = some w := by
              cases hbw : req.body_word with
              | none => exact absurd (Or.inl hbw) hB
              | some t => exact ⟨t, rfl⟩
            have hty2 : ty ≠ "" := by
              intro h; exact hA (Or.inr (by rw [hty, h]))
            have hw2 : w ≠ "" := by
              intro h; exact hB (Or.inr (by rw [hw, h]))
            refine ⟨⟨a, rfl⟩, hcfg, ⟨ty, hty, hty2⟩, ⟨w, hw, hw2, ?_⟩⟩
            intro hnone
            rw [hw] at h404
            rw [hty]
            by_contra hne
            exact h404 ⟨by simpa using hnone, by
              rw [hty]
              simpa using fun h => hne (by rw [h])⟩

/-- Any recorded spin (a 200 response from the track-result handler, not a
preflight) advances the authenticated user's statistics row by exactly one
spin, the tier's point value, the tier increments, and `Math.max` of the
score — whether the row already existed or was just seeded. -/
theorem track200_views (env : Env) (db : DB) (req : TrackRequest)
    (now uid : Nat)
    (hm : req.method ≠ Method.options)
    (hau : env.authUser = some uid)
    (h2 : (trackOracleResult env db req now).status = 200) :
    statsViewPoints (trackOracleResult env db req now).db uid
        = statsViewPoints db uid + pointsFor (req.body_type.getD "") ∧
    statsViewSpins (trackOracleResult env db req now).db uid
        = statsViewSpins db uid + 1 ∧
    statsViewDivine (trackOracleResult env db req now).db uid
        = statsViewDivine db uid + divineIncrementFor (req.body_type.getD "") ∧
    statsViewReality (trackOracleResult env db req now).db uid
        = statsViewReality db uid + realityIncrementFor (req.body_type.getD "") ∧
    statsViewHS (trackOracleResult env db req now).db uid
        = some (hsNext (statsViewHS db uid) (scoreToJs req.body_score)) := by
  obtain ⟨⟨a, ha⟩, hcfg, ⟨ty, hty, hty2⟩, ⟨w, hw, hw2, hvoid⟩⟩ :=
    track200_inv env db req now hm h2
  cases hfw : findWord db w with
  | some dw =>
    rw [track_success_found env db req now uid a ty w dw hm ha hcfg hau hty
      hty2 hw hw2 hfw]
    have hst : findStats (ledgerStep db uid dw now).db uid = findStats db uid :=
      findStats_congr uid (ledgerStep_stats db uid dw now)
    have hsv := statsStep_views (ledgerStep db uid dw now).db uid ty
      req.body_score now
    simp only [statsViewPoints, statsViewSpins, statsViewDivine,
      statsViewReality, statsViewHS, hst] at hsv
    simpa only [statsViewPoints, statsViewSpins, statsViewDivine,
      statsViewReality, statsViewHS, hty, Option.getD_some] using hsv
  | none =>
    have htyv : ty = "VOID" := by
      have := hvoid hfw
      rw [hty] at this
      simpa using this
    subst htyv
    rw [track_success_void env db req now uid a w hm ha hcfg hau hty hw hw2 hfw]
    simpa only [statsViewPoints, statsViewSpins, statsViewDivine,
      statsViewReality, statsViewHS, hty, Option.getD_some] using
      statsStep_views db uid "VOID" req.body_score now

theorem findWord_congr {db1 db2 : DB} (w : String)
    (h : db1.divine_words = db2.divine_words) :
    findWord db1 w = findWord db2 w := by
  unfold findWord; rw [h]

theorem findEntry_congr {db1 db2 : DB} (uid wid : Nat)
    (h : db1.user_collections = db2.user_collections) :
    findEntry db1 uid wid = findEntry db2 uid wid := by
  unfold findEntry; rw [h]

/-- The track-result handler on the not-found path: a present, non-`VOID`
type and a word absent from the catalog yield a 404 with no write — the
database is returned untouched and the only calls made are the credential
check and the catalog lookup. -/
theorem track_404 (env : Env) (db : DB) (req : TrackRequest) (now : Nat)
    (uid : Nat) (a ty w : String)
    (hm : req.method ≠ Method.options)
    (ha : req.authHeader = some a)
    (hcfg : ¬(env.supabaseUrl = none ∨ env.supabaseKey = none))
    (hau : env.authUser = some uid)
    (hty : req.body_type = some ty) (hty2 : ty ≠ "")
    (hw : req.body_word = some w) (hw2 : w ≠ "")
    (hfw : findWord db w = none) (htyv : ty ≠ "VOID") :
    trackOracleResult env db req now =
      { status := 404, db := db,
        ops := [DbOp.authGetUser, DbOp.catalogSelect] } := by
  have hval : ¬(strFalsy req.body_type ∨ strFalsy req.body_word) := by
    simp [strFalsy, hty, hw, hty2, hw2]
  have h404 : findWord db (req.body_word.getD "") = none ∧
      req.body_type.getD "" ≠ "VOID" := by
    rw [hw, hty]; exact ⟨hfw, by simpa using htyv⟩
  simp [trackOracleResult, if_neg hm, ha, if_neg hcfg, hau, if_neg hval,
    if_pos h404]

/-- The statistics phase issues exactly a select followed by one write. -/
theorem statsStep_ops (db : DB) (uid : Nat) (ty : String) (sc : Option Int)
    (now : Nat) :
    (statsStep db uid ty sc now).ops = [DbOp.statsSelect, DbOp.statsUpdate] ∨
    (statsStep db uid ty sc now).ops = [DbOp.statsSelect, DbOp.statsInsert] := by
  unfold statsStep
  cases findStats db uid
  · exact Or.inr rfl
  · exact Or.inl rfl

/-! ### Sequences of recorded spins (for the aggregate-statistics claim) -/

/-- Run the track-result handler over a sequence of (request, time) pairs,
threading the database. -/
def recordAll (env : Env) (db : DB) (reqs : List (TrackRequest × Nat)) : DB :=
  reqs.foldl (fun d r => (trackOracleResult env d r.1 r.2).db) db

/-- Every request in the sequence was answered 200 (run in order, each on
the database the previous one produced). -/
def allRecorded (env : Env) : DB → List (TrackRequest × Nat) → Bool
  | _, [] => true
  | db, r :: rs =>
    ((trackOracleResult env db r.1 r.2).status == 200) &&
      allRecorded env (trackOracleResult env db r.1 r.2).db rs

/-- The stored `highest_score` after a sequence of per-spin score values,
starting from an optional existing value (`Math.max` once a value exists,
seeding on the first spin otherwise). -/
def foldHS : Option JsNum → List JsNum → Option JsNum
  | cur, [] => cur
  | cur, j :: js => foldHS (some (hsNext cur j)) js

theorem foldHS_nums (m : Int) (scores : List Int) :
    foldHS (some (.num m)) (scores.map (fun s => JsNum.num s)) =
      some (.num (scores.foldl max m)) := by
  induction scores generalizing m with
  | nil => rfl
  | cons s ss ih => simpa [foldHS, hsNext, jsMax] using ih (max m s)

/-- Across any sequence of recorded (status-200, non-preflight) spins of
one authenticated user, the statistics row's `total_points` grows by the
sum of the per-spin tier values, `total_spins` by the number of spins, and
`highest_score` folds `Math.max` over the per-spin scores. -/
theorem recordAll_views (env : Env) (uid : Nat)
    (hau : env.authUser = some uid) (reqs : List (TrackRequest × Nat)) :
    ∀ db : DB, (∀ r ∈ reqs, (r : TrackRequest × Nat).1.method ≠ Method.options) →
      allRecorded env db reqs = true →
      statsViewPoints (recordAll env db reqs) uid
          = statsViewPoints db uid
            + (reqs.map (fun r => pointsFor (r.1.body_type.getD ""))).sum ∧
      statsViewSpins (recordAll env db reqs) uid
          = statsViewSpins db uid + reqs.length ∧
      statsViewHS (recordAll env db reqs) uid
          = foldHS (statsViewHS db uid)
              (reqs.map (fun r => scoreToJs r.1.body_score)) := by
  induction reqs with
  | nil => intro db _ _; simp [recordAll, foldHS]
  | cons r rs ih =>
    intro db hm hrec
    simp only [allRecorded, Bool.and_eq_true, beq_iff_eq] at hrec
    obtain ⟨h200, hrest⟩ := hrec
    have hstep := track200_views env db r.1 r.2 uid
      (hm r (List.mem_cons_self r rs)) hau h200
    have hih := ih (trackOracleResult env db r.1 r.2).db
      (fun x hx => hm x (List.mem_cons_of_mem r hx)) hrest
    have hra : recordAll env db (r :: rs)
        = recordAll env (trackOracleResult env db r.1 r.2).db rs := rfl
    rw [hra]
    refine ⟨?_, ?_, ?_⟩
    · rw [hih.1, hstep.1]; simp only [List.map_cons, List.sum_cons]; ring
    · rw [hih.2.1, hstep.2.1]; simp only [List.length_cons]; push_cast; ring
    · rw [hih.2.2, hstep.2.2.2.2]; simp [foldHS]

/-! ### The claims -/

/-- Claim C1: for every valid spin recorded by the track-result handler
(a non-preflight request answered 200), the point value credited to the
user's `total_points` is determined solely by the spin type — 20 for
`DIVINE`, 5 for `REALITY`, 1 for `VOID` — regardless of word, score or
prior state. -/
theorem claim1_points_by_type (env : Env) (db : DB) (req : TrackRequest)
    (now uid : Nat) (ty : String)
    (hm : req.method ≠ Method.options)
    (hau : env.authUser = some uid)
    (hty : req.body_type = some ty)
    (h2 : (trackOracleResult env db req now).status = 200) :
    (ty = "DIVINE" → statsViewPoints (trackOracleResult env db req now).db uid
        = statsViewPoints db uid + 20) ∧
    (ty = "REALITY" → statsViewPoints (trackOracleResult env db req now).db uid
        = statsViewPoints db uid + 5) ∧
    (ty = "VOID" → statsViewPoints (trackOracleResult env db req now).db uid
        = statsViewPoints db uid + 1) := by
  have h := (track200_views env db req now uid hm hau h2).1
  rw [hty, Option.getD_some] at h
  refine ⟨?_, ?_, ?_⟩ <;> intro hv <;> subst hv <;>
    simpa [pointsFor] using h

/-- Claim C1 witness: a concrete `DIVINE` spin credits exactly 20 points. -/
theorem claim1_points_by_type_witness :
    statsViewPoints (trackOracleResult
        { supabaseUrl := some "https://example.supabase.co",
          supabaseKey := some "service-role-key", authUser := some 7 }
        { divine_words := [{ id := 1, word := "LIGHT", rarity := "SSR" }],
          user_collections := [], user_statistics := [], next_id := 10 }
        { method := Method.post, authHeader := some "Bearer token",
          body_type := some "DIVINE", body_word := some "LIGHT",
          body_score := some 87 } 5).db 7
      = statsViewPoints
          { divine_words := [{ id := 1, word := "LIGHT", rarity := "SSR" }],
            user_collections := [], user_statistics := [], next_id := 10 } 7
        + 20 :=
  (claim1_points_by_type _ _ _ 5 7 "DIVINE" (by decide) rfl rfl
    (by decide)).1 rfl

/-- Claim C3: a non-preflight, authenticated request whose body lacks the
`type` field or lacks the `word` field is answered 400, the database is
untouched, and no catalog lookup, ledger write or statistics write is
performed (the only call made is the credential check). -/
theorem claim3_missing_fields (env : Env) (db : DB) (req : TrackRequest)
    (now uid : Nat) (a : String)
    (hm : req.method ≠ Method.options)
    (ha : req.authHeader = some a)
    (hcfg : ¬(env.supabaseUrl = none ∨ env.supabaseKey = none))
    (hau : env.authUser = some uid)
    (hmiss : req.body_type = none ∨ req.body_word = none) :
    (trackOracleResult env db req now).status = 400 ∧
    (trackOracleResult env db req now).db = db ∧
    (trackOracleResult env db req now).ops = [DbOp.authGetUser] := by
  have hval : strFalsy req.body_type ∨ strFalsy req.body_word := by
    rcases hmiss with h | h
    · exact Or.inl (Or.inl h)
    · exact Or.inr (Or.inl h)
  simp [trackOracleResult, if_neg hm, ha, if_neg hcfg, hau, if_pos hval]

/-- Claim C3 witness: a concrete request with no `type` field is answered
400 with no database access beyond the credential check. -/
theorem claim3_missing_fields_witness :
    (trackOracleResult
        { supabaseUrl := some "https://example.supabase.co",
          supabaseKey := some "service-role-key", authUser := some 7 }
        { divine_words := [{ id := 1, word := "LIGHT", rarity := "SSR" }],
          user_collections := [], user_statistics := [], next_id := 10 }
        { method := Method.post, authHeader := some "Bearer token",
          body_type := none, body_word := some "LIGHT",
          body_score := some 87 } 5).status = 400 ∧
    (trackOracleResult
        { supabaseUrl := some "https://example.supabase.co",
          supabaseKey := some "service-role-key", authUser := some 7 }
        { divine_words := [{ id := 1, word := "LIGHT", rarity := "SSR" }],
          user_collections := [], user_statistics := [], next_id := 10 }
        { method := Method.post, authHeader := some "Bearer token",
          body_type := none, body_word := some "LIGHT",
          body_score := some 87 } 5).db
      = { divine_words := [{ id := 1, word := "LIGHT", rarity := "SSR" }],
          user_collections := [], user_statistics := [], next_id := 10 } ∧
    (trackOracleResult
        { supabaseUrl := some "https://example.supabase.co",
          supabaseKey := some "service-role-key", authUser := some 7 }
        { divine_words := [{ id := 1, word := "LIGHT", rarity := "SSR" }],
          user_collections := [], user_statistics := [], next_id := 10 }
        { method := Method.post, authHeader := some "Bearer token",
          body_type := none, body_word := some "LIGHT",
          body_score := some 87 } 5).ops = [DbOp.authGetUser] :=
  claim3_missing_fields _ _ _ 5 7 "Bearer token" (by decide) rfl (by decide)
    rfl (Or.inl rfl)

/-- Claim C4: a non-preflight, authenticated spin with `type = DIVINE`
whose word has no exact-text match in the catalog is answered 404; the
database (statistics and ledger) is returned unchanged and the only calls
made before the error are the credential check and the catalog lookup —
no write is attempted. -/
theorem claim4_divine_unknown (env : Env) (db : DB) (req : TrackRequest)
    (now uid : Nat) (a w : String)
    (hm : req.method ≠ Method.options)
    (ha : req.authHeader = some a)
    (hcfg : ¬(env.supabaseUrl = none ∨ env.supabaseKey = none))
    (hau : env.authUser = some uid)
    (hty : req.body_type = some "DIVINE")
    (hw : req.body_word = some w) (hw2 : w ≠ "")
    (hfw : findWord db w = none) :
    (trackOracleResult env db req now).status = 404 ∧
    (trackOracleResult env db req now).db = db ∧
    (trackOracleResult env db req now).ops
      = [DbOp.authGetUser, DbOp.catalogSelect] := by
  rw [track_404 env db req now uid a "DIVINE" w hm ha hcfg hau hty
    (by decide) hw hw2 hfw (by decide)]
  exact ⟨rfl, rfl, rfl⟩

/-- Claim C4 witness: a concrete unknown-word `DIVINE` spin gets a 404 and
leaves the database untouched. -/
theorem claim4_divine_unknown_witness :
    (trackOracleResult
        { supabaseUrl := some "https://example.supabase.co",
          supabaseKey := some "service-role-key", authUser := some 7 }
        { divine_words := [{ id := 1, word := "LIGHT", rarity := "SSR" }],
          user_collections := [], user_statistics := [], next_id := 10 }
        { method := Method.post, authHeader := some "Bearer token",
          body_type := some "DIVINE", body_word := some "DARK",
          body_score := some 87 } 5).status = 404 ∧
    (trackOracleResult
        { supabaseUrl := some "https://example.supabase.co",
          supabaseKey := some "service-role-key", authUser := some 7 }
        { divine_words := [{ id := 1, word := "LIGHT", rarity := "SSR" }],
          user_collections := [], user_statistics := [], next_id := 10 }
        { method := Method.post, authHeader := some "Bearer token",
          body_type := some "DIVINE", body_word := some "DARK",
          body_score := some 87 } 5).db
      = { divine_words := [{ id := 1, word := "LIGHT", rarity := "SSR" }],
          user_collections := [], user_statistics := [], next_id := 10 } ∧
    (trackOracleResult
        { supabaseUrl := some "https://example.supabase.co",
          supabaseKey := some "service-role-key", authUser := some 7 }
        { divine_words := [{ id := 1, word := "LIGHT", rarity := "SSR" }],
          user_collections := [], user_statistics := [], next_id := 10 }
        { method := Method.post, authHeader := some "Bearer token",
          body_type := some "DIVINE", body_word := some "DARK",
          body_score := some 87 } 5).ops
      = [DbOp.authGetUser, DbOp.catalogSelect] :=
  claim4_divine_unknown _ _ _ 5 7 "Bearer token" "DARK" (by decide) rfl
    (by decide) rfl rfl rfl (by decide) (by decide)

/-- Claim C8: on both endpoints, a non-preflight request without an
`Authorization` header is answered 401 immediately — the database is
untouched and not a single database or identity-provider call is issued
(CORS preflights, which the spec documents separately as `OPTIONS → 200`,
are the one carve-out). -/
theorem claim8_no_auth_header (env : Env) (db : DB) (treq : TrackRequest)
    (preq : ProfileRequest) (now : Nat)
    (hm1 : treq.method ≠ Method.options)
    (hm2 : preq.method ≠ Method.options)
    (h1 : treq.authHeader = none)
    (h2 : preq.authHeader = none) :
    trackOracleResult env db treq now = { status := 401, db := db, ops := [] } ∧
    getProfile env db preq = { status := 401, ops := [], payload := none } := by
  constructor
  · simp [trackOracleResult, if_neg hm1, h1]
  · simp [getProfile, if_neg hm2, h2]

/-- Claim C8 witness: concrete header-less requests to both endpoints. -/
theorem claim8_no_auth_header_witness :
    trackOracleResult
        { supabaseUrl := some "https://example.supabase.co",
          supabaseKey := some "service-role-key", authUser := some 7 }
        { divine_words := [{ id := 1, word := "LIGHT", rarity := "SSR" }],
          user_collections := [], user_statistics := [], next_id := 10 }
        { method := Method.post, authHeader := none,
          body_type := some "DIVINE", body_word := some "LIGHT",
          body_score := some 87 } 5
      = { status := 401,
          db := { divine_words := [{ id := 1, word := "LIGHT", rarity := "SSR" }],
                  user_collections := [], user_statistics := [], next_id := 10 },
          ops := [] } ∧
    getProfile
        { supabaseUrl := some "https://example.supabase.co",
          supabaseKey := some "service-role-key", authUser := some 7 }
        { divine_words := [{ id := 1, word := "LIGHT", rarity := "SSR" }],
          user_collections := [], user_statistics := [], next_id := 10 }
        { method := Method.get, authHeader := none }
      = { status := 401, ops := [], payload := none } :=
  claim8_no_auth_header _ _ _ _ 5 (by decide) (by decide) rfl rfl

/-- Claim C5: a non-preflight, authenticated spin with `type = VOID` and a
word absent from the catalog is answered 200; the statistics row advances
by one spin and one point, while the ledger is untouched — the collection
table is unchanged and no ledger call of any kind is issued. -/
theorem claim5_void_unknown (env : Env) (db : DB) (req : TrackRequest)
    (now uid : Nat) (a w : String)
    (hm : req.method ≠ Method.options)
    (ha : req.authHeader = some a)
    (hcfg : ¬(env.supabaseUrl = none ∨ env.supabaseKey = none))
    (hau : env.authUser = some uid)
    (hty : req.body_type = some "VOID")
    (hw : req.body_word = some w) (hw2 : w ≠ "")
    (hfw : findWord db w = none) :
    (trackOracleResult env db req now).status = 200 ∧
    (trackOracleResult env db req now).db.user_collections
      = db.user_collections ∧
    statsViewSpins (trackOracleResult env db req now).db uid
      = statsViewSpins db uid + 1 ∧
    statsViewPoints (trackOracleResult env db req now).db uid
      = statsViewPoints db uid + 1 ∧
    DbOp.ledgerSelect ∉ (trackOracleResult env db req now).ops ∧
    DbOp.ledgerUpdate ∉ (trackOracleResult env db req now).ops ∧
    DbOp.ledgerInsert ∉ (trackOracleResult env db req now).ops := by
  rw [track_success_void env db req now uid a w hm ha hcfg hau hty hw hw2 hfw]
  have hsv := statsStep_views db uid "VOID" req.body_score now
  refine ⟨rfl, statsStep_collections db uid "VOID" req.body_score now,
    ?_, ?_, ?_, ?_, ?_⟩
  · simpa using hsv.2.1
  · have hp : pointsFor "VOID" = 1 := by decide
    simpa [hp] using hsv.1
  all_goals
    rcases statsStep_ops db uid "VOID" req.body_score now with h | h <;>
      simp [h]

/-- Claim C5 witness: a concrete unknown-word `VOID` spin succeeds,
advances statistics by one spin and one point, and leaves the ledger
alone. -/
theorem claim5_void_unknown_witness :
    (trackOracleResult
        { supabaseUrl := some "https://example.supabase.co",
          supabaseKey := some "service-role-key", authUser := some 7 }
        { divine_words := [{ id := 1, word := "LIGHT", rarity := "SSR" }],
          user_collections := [], user_statistics := [], next_id := 10 }
        { method := Method.post, authHeader := some "Bearer token",
          body_type := some "VOID", body_word := some "DARK",
          body_score := some 2 } 5).status = 200 ∧
    (trackOracleResult
        { supabaseUrl := some "https://example.supabase.co",
          supabaseKey := some "service-role-key", authUser := some 7 }
        { divine_words := [{ id := 1, word := "LIGHT", rarity := "SSR" }],
          user_collections := [], user_statistics := [], next_id := 10 }
        { method := Method.post, authHeader := some "Bearer token",
          body_type := some "VOID", body_word := some "DARK",
          body_score := some 2 } 5).db.user_collections
      = ({ divine_words := [{ id := 1, word := "LIGHT", rarity := "SSR" }],
           user_collections := [], user_statistics := [],
           next_id := 10 } : DB).user_collections ∧
    statsViewSpins (trackOracleResult
        { supabaseUrl := some "https://example.supabase.co",
          supabaseKey := some "service-role-key", authUser := some 7 }
        { divine_words := [{ id := 1, word := "LIGHT", rarity := "SSR" }],
          user_collections := [], user_statistics := [], next_id := 10 }
        { method := Method.post, authHeader := some "Bearer token",
          body_type := some "VOID", body_word := some "DARK",
          body_score := some 2 } 5).db 7
      = statsViewSpins
          { divine_words := [{ id := 1, word := "LIGHT", rarity := "SSR" }],
            user_collections := [], user_statistics := [], next_id := 10 } 7
        + 1 ∧
    statsViewPoints (trackOracleResult
        { supabaseUrl := some "https://example.supabase.co",
          supabaseKey := some "service-role-key", authUser := some 7 }
        { divine_words := [{ id := 1, word := "LIGHT", rarity := "SSR" }],
          user_collections := [], user_statistics := [], next_id := 10 }
        { method := Method.post, authHeader := some "Bearer token",
          body_type := some "VOID", body_word := some "DARK",
          body_score := some 2 } 5).db 7
      = statsViewPoints
          { divine_words := [{ id := 1, word := "LIGHT", rarity := "SSR" }],
            user_collections := [], user_statistics := [], next_id := 10 } 7
        + 1 ∧
    DbOp.ledgerSelect ∉ (trackOracleResult
        { supabaseUrl := some "https://example.supabase.co",
          supabaseKey := some "service-role-key", authUser := some 7 }
        { divine_words := [{ id := 1, word := "LIGHT", rarity := "SSR" }],
          user_collections := [], user_statistics := [], next_id := 10 }
        { method := Method.post, authHeader := some "Bearer token",
          body_type := some "VOID", body_word := some "DARK",
          body_score := some 2 } 5).ops ∧
    DbOp.ledgerUpdate ∉ (trackOracleResult
        { supabaseUrl := some "https://example.supabase.co",
          supabaseKey := some "service-role-key", authUser := some 7 }
        { divine_words := [{ id := 1, word := "LIGHT", rarity := "SSR" }],
          user_collections := [], user_statistics := [], next_id := 10 }
        { method := Method.post, authHeader := some "Bearer token",
          body_type := some "VOID", body_word := some "DARK",
          body_score := some 2 } 5).ops ∧
    DbOp.ledgerInsert ∉ (trackOracleResult
        { supabaseUrl := some "https://example.supabase.co",
          supabaseKey := some "service-role-key", authUser := some 7 }
        { divine_words := [{ id := 1, word := "LIGHT", rarity := "SSR" }],
          user_collections := [], user_statistics := [], next_id := 10 }
        { method := Method.post, authHeader := some "Bearer token",
          body_type := some "VOID", body_word := some "DARK",
          body_score := some 2 } 5).ops :=
  claim5_void_unknown _ _ _ 5 7 "Bearer token" "DARK" (by decide) rfl
    (by decide) rfl rfl rfl (by decide) (by decide)

/-- Claim C9: a non-preflight, authenticated request with non-empty `type`
and `word` but no `score` field passes validation (it is never answered
400), proceeds to the catalog lookup, and — when it succeeds — writes the
statistics row with `highest_score` computed from the absent
(`undefined`) score: `Math.max(old, undefined)` on the update path, the
raw `undefined` on the seed path. -/
theorem claim9_absent_score (env : Env) (db : DB) (req : TrackRequest)
    (now uid : Nat) (a ty w : String)
    (hm : req.method ≠ Method.options)
    (ha : req.authHeader = some a)
    (hcfg : ¬(env.supabaseUrl = none ∨ env.supabaseKey = none))
    (hau : env.authUser = some uid)
    (hty : req.body_type = some ty) (hty2 : ty ≠ "")
    (hw : req.body_word = some w) (hw2 : w ≠ "")
    (hsc : req.body_score = none) :
    (trackOracleResult env db req now).status ≠ 400 ∧
    DbOp.catalogSelect ∈ (trackOracleResult env db req now).ops ∧
    ((trackOracleResult env db req now).status = 200 →
      statsViewHS (trackOracleResult env db req now).db uid
        = some (hsNext (statsViewHS db uid) JsNum.undefined)) := by
  have hbase : (trackOracleResult env db req now).status ≠ 400 ∧
      DbOp.catalogSelect ∈ (trackOracleResult env db req now).ops := by
    cases hfw : findWord db w with
    | some dw =>
      rw [track_success_found env db req now uid a ty w dw hm ha hcfg hau hty
        hty2 hw hw2 hfw]
      exact ⟨by simp, by simp⟩
    | none =>
      by_cases hv : ty = "VOID"
      · subst hv
        rw [track_success_void env db req now uid a w hm ha hcfg hau hty hw
          hw2 hfw]
        exact ⟨by simp, by simp⟩
      · rw [track_404 env db req now uid a ty w hm ha hcfg hau hty hty2 hw
          hw2 hfw hv]
        exact ⟨by simp, by simp⟩
  refine ⟨hbase.1, hbase.2, ?_⟩
  intro h200
  have h := (track200_views env db req now uid hm hau h200).2.2.2.2
  rw [hsc] at h
  simpa [scoreToJs] using h

/-- Claim C9 witness: a concrete score-less `DIVINE` spin is not rejected,
reaches the catalog, and seeds `highest_score` from the absent score. -/
theorem claim9_absent_score_witness :
    (trackOracleResult
        { supabaseUrl := some "https://example.supabase.co",
          supabaseKey := some "service-role-key", authUser := some 7 }
        { divine_words := [{ id := 1, word := "LIGHT", rarity := "SSR" }],
          user_collections := [], user_statistics := [], next_id := 10 }
        { method := Method.post, authHeader := some "Bearer token",
          body_type := some "DIVINE", body_word := some "LIGHT",
          body_score := none } 5).status ≠ 400 ∧
    DbOp.catalogSelect ∈ (trackOracleResult
        { supabaseUrl := some "https://example.supabase.co",
          supabaseKey := some "service-role-key", authUser := some 7 }
        { divine_words := [{ id := 1, word := "LIGHT", rarity := "SSR" }],
          user_collections := [], user_statistics := [], next_id := 10 }
        { method := Method.post, authHeader := some "Bearer token",
          body_type := some "DIVINE", body_word := some "LIGHT",
          body_score := none } 5).ops ∧
    ((trackOracleResult
        { supabaseUrl := some "https://example.supabase.co",
          supabaseKey := some "service-role-key", authUser := some 7 }
        { divine_words := [{ id := 1, word := "LIGHT", rarity := "SSR" }],
          user_collections := [], user_statistics := [], next_id := 10 }
        { method := Method.post, authHeader := some "Bearer token",
          body_type := some "DIVINE", body_word := some "LIGHT",
          body_score := none } 5).status = 200 →
      statsViewHS (trackOracleResult
          { supabaseUrl := some "https://example.supabase.co",
            supabaseKey := some "service-role-key", authUser := some 7 }
          { divine_words := [{ id := 1, word := "LIGHT", rarity := "SSR" }],
            user_collections := [], user_statistics := [], next_id := 10 }
          { method := Method.post, authHeader := some "Bearer token",
            body_type := some "DIVINE", body_word := some "LIGHT",
            body_score := none } 5).db 7
        = some (hsNext (statsViewHS
            { divine_words := [{ id := 1, word := "LIGHT", rarity := "SSR" }],
              user_collections := [], user_statistics := [], next_id := 10 } 7)
            JsNum.undefined)) :=
  claim9_absent_score _ _ _ 5 7 "Bearer token" "DIVINE" "LIGHT" (by decide)
    rfl (by decide) rfl rfl (by decide) rfl (by decide) rfl

/-- Claim C10: a non-preflight, authenticated request with a non-empty
`type` outside `{DIVINE, REALITY, VOID}` is not rejected for its type.
When the word is in the catalog the spin is recorded: the ledger entry is
updated exactly as for any known word (increment or fresh insert) and the
statistics advance with 1 point and zero tier increments — the same
scoring as `VOID`.  When the word is absent the request gets a 404. -/
theorem claim10_unrecognized_type (env : Env) (db : DB) (req : TrackRequest)
    (now uid : Nat) (a ty w : String)
    (hm : req.method ≠ Method.options)
    (ha : req.authHeader = some a)
    (hcfg : ¬(env.supabaseUrl = none ∨ env.supabaseKey = none))
    (hau : env.authUser = some uid)
    (hty : req.body_type = some ty)
    (htyD : ty ≠ "DIVINE") (htyR : ty ≠ "REALITY") (htyV : ty ≠ "VOID")
    (htyE : ty ≠ "")
    (hw : req.body_word = some w) (hw2 : w ≠ "") :
    (∀ dw, findWord db w = some dw →
      (trackOracleResult env db req now).status = 200 ∧
      statsViewPoints (trackOracleResult env db req now).db uid
        = statsViewPoints db uid + 1 ∧
      statsViewDivine (trackOracleResult env db req now).db uid
        = statsViewDivine db uid ∧
      statsViewReality (trackOracleResult env db req now).db uid
        = statsViewReality db uid ∧
      findEntry (trackOracleResult env db req now).db uid dw.id =
        some (match findEntry db uid dw.id with
          | some c =>
              { c with found_count := c.found_count + 1, updated_at := now }
          | none =>
              { id := db.next_id, user_id := uid, divine_word_id := dw.id,
                found_count := 1, first_found_at := now,
                updated_at := now })) ∧
    (findWord db w = none → (trackOracleResult env db req now).status = 404) := by
  constructor
  · intro dw hfw
    rw [track_success_found env db req now uid a ty w dw hm ha hcfg hau hty
      htyE hw hw2 hfw]
    have hpts : pointsFor ty = 1 := by simp [pointsFor, htyD, htyR]
    have hdi : divineIncrementFor ty = 0 := by simp [divineIncrementFor, htyD]
    have hri : realityIncrementFor ty = 0 := by simp [realityIncrementFor, htyR]
    have hst : findStats (ledgerStep db uid dw now).db uid = findStats db uid :=
      findStats_congr uid (ledgerStep_stats db uid dw now)
    have hsv := statsStep_views (ledgerStep db uid dw now).db uid ty
      req.body_score now
    simp only [statsViewPoints, statsViewSpins, statsViewDivine,
      statsViewReality, statsViewHS, hst] at hsv
    refine ⟨rfl, ?_, ?_, ?_, ?_⟩
    · simpa [statsViewPoints, hpts] using hsv.1
    · simpa [statsViewDivine, hdi] using hsv.2.2.1
    · simpa [statsViewReality, hri] using hsv.2.2.2.1
    · have hcoll := statsStep_collections (ledgerStep db uid dw now).db uid ty
        req.body_score now
      change findEntry (statsStep (ledgerStep db uid dw now).db uid ty
        req.body_score now).db uid dw.id = _
      rw [findEntry_congr uid dw.id hcoll]
      have hle := findEntry_ledgerStep db uid dw now
      cases hfe : findEntry db uid dw.id <;> rw [hfe] at hle <;>
        simpa using hle
  · intro hfw
    rw [track_404 env db req now uid a ty w hm ha hcfg hau hty htyE hw hw2
      hfw htyV]

/-- Claim C10 witness: a concrete spin with type `"COSMIC"` and a known
word succeeds with 1 point, no tier increments, and a fresh ledger entry;
the same type with an unknown word gets a 404. -/
theorem claim10_unrecognized_type_witness :
    ((trackOracleResult
        { supabaseUrl := some "https://example.supabase.co",
          supabaseKey := some "service-role-key", authUser := some 7 }
        { divine_words := [{ id := 1, word := "LIGHT", rarity := "SSR" }],
          user_collections := [], user_statistics := [], next_id := 10 }
        { method := Method.post, authHeader := some "Bearer token",
          body_type := some "COSMIC", body_word := some "LIGHT",
          body_score := some 4 } 5).status = 200 ∧
      statsViewPoints (trackOracleResult
          { supabaseUrl := some "https://example.supabase.co",
            supabaseKey := some "service-role-key", authUser := some 7 }
          { divine_words := [{ id := 1, word := "LIGHT", rarity := "SSR" }],
            user_collections := [], user_statistics := [], next_id := 10 }
          { method := Method.post, authHeader := some "Bearer token",
            body_type := some "COSMIC", body_word := some "LIGHT",
            body_score := some 4 } 5).db 7
        = statsViewPoints
            { divine_words := [{ id := 1, word := "LIGHT", rarity := "SSR" }],
              user_collections := [], user_statistics := [], next_id := 10 } 7
          + 1 ∧
      statsViewDivine (trackOracleResult
          { supabaseUrl := some "https://example.supabase.co",
            supabaseKey := some "service-role-key", authUser := some 7 }
          { divine_words := [{ id := 1, word := "LIGHT", rarity := "SSR" }],
            user_collections := [], user_statistics := [], next_id := 10 }
          { method := Method.post, authHeader := some "Bearer token",
            body_type := some "COSMIC", body_word := some "LIGHT",
            body_score := some 4 } 5).db 7
        = statsViewDivine
            { divine_words := [{ id := 1, word := "LIGHT", rarity := "SSR" }],
              user_collections := [], user_statistics := [], next_id := 10 } 7 ∧
      statsViewReality (trackOracleResult
          { supabaseUrl := some "https://example.supabase.co",
            supabaseKey := some "service-role-key", authUser := some 7 }
          { divine_words := [{ id := 1, word := "LIGHT", rarity := "SSR" }],
            user_collections := [], user_statistics := [], next_id := 10 }
          { method := Method.post, authHeader := some "Bearer token",
            body_type := some "COSMIC", body_word := some "LIGHT",
            body_score := some 4 } 5).db 7
        = statsViewReality
            { divine_words := [{ id := 1, word := "LIGHT", rarity := "SSR" }],
              user_collections := [], user_statistics := [], next_id := 10 } 7 ∧
      findEntry (trackOracleResult
          { supabaseUrl := some "https://example.supabase.co",
            supabaseKey := some "service-role-key", authUser := some 7 }
          { divine_words := [{ id := 1, word := "LIGHT", rarity := "SSR" }],
            user_collections := [], user_statistics := [], next_id := 10 }
          { method := Method.post, authHeader := some "Bearer token",
            body_type := some "COSMIC", body_word := some "LIGHT",
            body_score := some 4 } 5).db 7
          ({ id := 1, word := "LIGHT", rarity := "SSR" } : DivineWord).id =
        some (match findEntry
            { divine_words := [{ id := 1, word := "LIGHT", rarity := "SSR" }],
              user_collections := [], user_statistics := [], next_id := 10 } 7
            ({ id := 1, word := "LIGHT", rarity := "SSR" } : DivineWord).id with
          | some c =>
              { c with found_count := c.found_count + 1, updated_at := 5 }
          | none =>
              { id := 10, user_id := 7, divine_word_id :=
                  ({ id := 1, word := "LIGHT", rarity := "SSR" } : DivineWord).id,
                found_count := 1, first_found_at := 5, updated_at := 5 })) :=
  (claim10_unrecognized_type
    { supabaseUrl := some "https://example.supabase.co",
      supabaseKey := some "service-role-key", authUser := some 7 }
    { divine_words := [{ id := 1, word := "LIGHT", rarity := "SSR" }],
      user_collections := [], user_statistics := [], next_id := 10 }
    { method := Method.post, authHeader := some "Bearer token",
      body_type := some "COSMIC", body_word := some "LIGHT",
      body_score := some 4 } 5 7 "Bearer token" "COSMIC" "LIGHT" (by decide)
    rfl (by decide) rfl rfl (by decide) (by decide) (by decide) (by decide)
    rfl (by decide)).1
    { id := 1, word := "LIGHT", rarity := "SSR" } rfl

/-- Claim C6: for a known catalog word and a user whose ledger has no entry
for it, the first recorded spin inserts the entry with `found_count = 1`
and `first_found_at` equal to the first spin's time; recording a second
spin for the same word updates that entry to `found_count = 2`, leaves
`first_found_at` (and the identifying fields) unchanged, and refreshes
only `updated_at` to the second spin's time. -/
theorem claim6_repeat_spin (env : Env) (db : DB) (req1 req2 : TrackRequest)
    (t1 t2 uid : Nat) (a1 a2 ty1 ty2 w : String) (dw : DivineWord)
    (hm1 : req1.method ≠ Method.options)
    (hm2 : req2.method ≠ Method.options)
    (ha1 : req1.authHeader = some a1)
    (ha2 : req2.authHeader = some a2)
    (hcfg : ¬(env.supabaseUrl = none ∨ env.supabaseKey = none))
    (hau : env.authUser = some uid)
    (hty1 : req1.body_type = some ty1) (hty12 : ty1 ≠ "")
    (hty2 : req2.body_type = some ty2) (hty22 : ty2 ≠ "")
    (hw1 : req1.body_word = some w) (hw2 : req2.body_word = some w)
    (hwne : w ≠ "")
    (hfw : findWord db w = some dw)
    (hnew : findEntry db uid dw.id = none) :
    (trackOracleResult env db req1 t1).status = 200 ∧
    findEntry (trackOracleResult env db req1 t1).db uid dw.id
      = some { id := db.next_id, user_id := uid, divine_word_id := dw.id,
               found_count := 1, first_found_at := t1, updated_at := t1 } ∧
    (trackOracleResult env (trackOracleResult env db req1 t1).db req2
      t2).status = 200 ∧
    findEntry (trackOracleResult env (trackOracleResult env db req1 t1).db
        req2 t2).db uid dw.id
      = some { id := db.next_id, user_id := uid, divine_word_id := dw.id,
               found_count := 2, first_found_at := t1, updated_at := t2 } := by
  rw [track_success_found env db req1 t1 uid a1 ty1 w dw hm1 ha1 hcfg hau
    hty1 hty12 hw1 hwne hfw]
  have hent1 : findEntry (statsStep (ledgerStep db uid dw t1).db uid ty1
      req1.body_score t1).db uid dw.id
      = some { id := db.next_id, user_id := uid, divine_word_id := dw.id,
               found_count := 1, first_found_at := t1, updated_at := t1 } := by
    rw [findEntry_congr uid dw.id (statsStep_collections _ uid ty1
      req1.body_score t1)]
    rw [findEntry_ledgerStep db uid dw t1, hnew]
  have hwords : (statsStep (ledgerStep db uid dw t1).db uid ty1
      req1.body_score t1).db.divine_words = db.divine_words := by
    rw [statsStep_words, ledgerStep_words]
  have hfw1 : findWord (statsStep (ledgerStep db uid dw t1).db uid ty1
      req1.body_score t1).db w = some dw := by
    rw [findWord_congr w hwords]; exact hfw
  rw [track_success_found env _ req2 t2 uid a2 ty2 w dw hm2 ha2 hcfg hau
    hty2 hty22 hw2 hwne hfw1]
  refine ⟨rfl, hent1, rfl, ?_⟩
  rw [findEntry_congr uid dw.id (statsStep_collections _ uid ty2
    req2.body_score t2)]
  rw [findEntry_ledgerStep _ uid dw t2, hent1]
  norm_num

/-- Claim C6 witness: two concrete spins on the same known word — the
second run's ledger entry reaches `found_count = 2` with `first_found_at`
still the first spin's time. -/
theorem claim6_repeat_spin_witness :
    (trackOracleResult
        { supabaseUrl := some "https://example.supabase.co",
          supabaseKey := some "service-role-key", authUser := some 7 }
        { divine_words := [{ id := 1, word := "LIGHT", rarity := "SSR" }],
          user_collections := [], user_statistics := [], next_id := 10 }
        { method := Method.post, authHeader := some "Bearer token",
          body_type := some "DIVINE", body_word := some "LIGHT",
          body_score := some 87 } 5).status = 200 ∧
    findEntry (trackOracleResult
        { supabaseUrl := some "https://example.supabase.co",
          supabaseKey := some "service-role-key", authUser := some 7 }
        { divine_words := [{ id := 1, word := "LIGHT", rarity := "SSR" }],
          user_collections := [], user_statistics := [], next_id := 10 }
        { method := Method.post, authHeader := some "Bearer token",
          body_type := some "DIVINE", body_word := some "LIGHT",
          body_score := some 87 } 5).db 7
        ({ id := 1, word := "LIGHT", rarity := "SSR" } : DivineWord).id
      = some { id := 10, user_id := 7, divine_word_id :=
                 ({ id := 1, word := "LIGHT", rarity := "SSR" } : DivineWord).id,
               found_count := 1, first_found_at := 5, updated_at := 5 } ∧
    (trackOracleResult
        { supabaseUrl := some "https://example.supabase.co",
          supabaseKey := some "service-role-key", authUser := some 7 }
        (trackOracleResult
          { supabaseUrl := some "https://example.supabase.co",
            supabaseKey := some "service-role-key", authUser := some 7 }
          { divine_words := [{ id := 1, word := "LIGHT", rarity := "SSR" }],
            user_collections := [], user_statistics := [], next_id := 10 }
          { method := Method.post, authHeader := some "Bearer token",
            body_type := some "DIVINE", body_word := some "LIGHT",
            body_score := some 87 } 5).db
        { method := Method.post, authHeader := some "Bearer token",
          body_type := some "REALITY", body_word := some "LIGHT",
          body_score := some 3 } 9).status = 200 ∧
    findEntry (trackOracleResult
        { supabaseUrl := some "https://example.supabase.co",
          supabaseKey := some "service-role-key", authUser := some 7 }
        (trackOracleResult
          { supabaseUrl := some "https://example.supabase.co",
            supabaseKey := some "service-role-key", authUser := some 7 }
          { divine_words := [{ id := 1, word := "LIGHT", rarity := "SSR" }],
            user_collections := [], user_statistics := [], next_id := 10 }
          { method := Method.post, authHeader := some "Bearer token",
            body_type := some "DIVINE", body_word := some "LIGHT",
            body_score := some 87 } 5).db
        { method := Method.post, authHeader := some "Bearer token",
          body_type := some "REALITY", body_word := some "LIGHT",
          body_score := some 3 } 9).db 7
        ({ id := 1, word := "LIGHT", rarity := "SSR" } : DivineWord).id
      = some { id := 10, user_id := 7, divine_word_id :=
                 ({ id := 1, word := "LIGHT", rarity := "SSR" } : DivineWord).id,
               found_count := 2, first_found_at := 5, updated_at := 9 } :=
  claim6_repeat_spin _ _ _ _ 5 9 7 "Bearer token" "Bearer token" "DIVINE"
    "REALITY" "LIGHT" { id := 1, word := "LIGHT", rarity := "SSR" }
    (by decide) (by decide) rfl rfl (by decide) rfl rfl (by decide) rfl
    (by decide) rfl rfl (by decide) rfl rfl

theorem map_scoreToJs (l : List (TrackRequest × Nat))
    (h : ∀ r ∈ l, ((r : TrackRequest × Nat).1.body_score).isSome = true) :
    l.map (fun r => scoreToJs r.1.body_score)
      = (l.map (fun r => r.1.body_score.getD 0)).map
          (fun s => JsNum.num s) := by
  induction l with
  | nil => rfl
  | cons r rs ih =>
    obtain ⟨s, hs⟩ := Option.isSome_iff_exists.mp
      (h r (List.mem_cons_self r rs))
    have ih' := ih (fun x hx => h x (List.mem_cons_of_mem r hx))
    simp only [List.map_cons, hs, Option.getD_some]
    rw [ih']
    rfl

/-- Claim C2: for a user with no statistics row yet, after a nonempty
sequence of successfully recorded spins (each a non-preflight request
answered 200, each carrying a score), the statistics row holds
`total_points` equal to the sum of the per-spin tier point values,
`total_spins` equal to the number of spins, and `highest_score` equal to
the maximum of the submitted scores — the first spin seeding the row and
every later spin folding into it. -/
theorem claim2_aggregate_totals (env : Env) (db : DB) (uid : Nat)
    (r0 : TrackRequest × Nat) (rest : List (TrackRequest × Nat))
    (hau : env.authUser = some uid)
    (hm : ∀ r ∈ r0 :: rest, (r : TrackRequest × Nat).1.method ≠ Method.options)
    (hsc : ∀ r ∈ r0 :: rest, ((r : TrackRequest × Nat).1.body_score).isSome = true)
    (hfresh : findStats db uid = none)
    (hrec : allRecorded env db (r0 :: rest) = true) :
    statsViewPoints (recordAll env db (r0 :: rest)) uid
      = ((r0 :: rest).map (fun r => pointsFor (r.1.body_type.getD ""))).sum ∧
    statsViewSpins (recordAll env db (r0 :: rest)) uid
      = ((r0 :: rest).length : Int) ∧
    statsViewHS (recordAll env db (r0 :: rest)) uid
      = some (JsNum.num
          ((rest.map (fun r => r.1.body_score.getD 0)).foldl max
            (r0.1.body_score.getD 0))) := by
  have h := recordAll_views env uid hau (r0 :: rest) db hm hrec
  have h0p : statsViewPoints db uid = 0 := by simp [statsViewPoints, hfresh]
  have h0s : statsViewSpins db uid = 0 := by simp [statsViewSpins, hfresh]
  have h0h : statsViewHS db uid = none := by simp [statsViewHS, hfresh]
  refine ⟨?_, ?_, ?_⟩
  · rw [h.1, h0p, zero_add]
  · rw [h.2.1, h0s, zero_add]
  · rw [h.2.2, h0h, map_scoreToJs _ hsc]
    have hfn := foldHS_nums (r0.1.body_score.getD 0)
      (rest.map (fun r => r.1.body_score.getD 0))
    simpa [foldHS, hsNext] using hfn

/-- Claim C2 witness: two concrete recorded spins (`DIVINE` then
`REALITY`, scores 87 and 3) end with 25 points, 2 spins, and a highest
score of 87. -/
theorem claim2_aggregate_totals_witness :
    statsViewPoints (recordAll
        { supabaseUrl := some "https://example.supabase.co",
          supabaseKey := some "service-role-key", authUser := some 7 }
        { divine_words := [{ id := 1, word := "LIGHT", rarity := "SSR" },
                           { id := 2, word := "MIST", rarity := "SR" }],
          user_collections := [], user_statistics := [], next_id := 10 }
        [({ method := Method.post, authHeader := some "Bearer token",
            body_type := some "DIVINE", body_word := some "LIGHT",
            body_score := some 87 }, 5),
         ({ method := Method.post, authHeader := some "Bearer token",
            body_type := some "REALITY", body_word := some "MIST",
            body_score := some 3 }, 9)]) 7
      = (([({ method := Method.post, authHeader := some "Bearer token",
              body_type := some "DIVINE", body_word := some "LIGHT",
              body_score := some 87 }, 5),
           ({ method := Method.post, authHeader := some "Bearer token",
              body_type := some "REALITY", body_word := some "MIST",
              body_score := some 3 }, 9)] :
            List (TrackRequest × Nat)).map
          (fun r => pointsFor (r.1.body_type.getD ""))).sum ∧
    statsViewSpins (recordAll
        { supabaseUrl := some "https://example.supabase.co",
          supabaseKey := some "service-role-key", authUser := some 7 }
        { divine_words := [{ id := 1, word := "LIGHT", rarity := "SSR" },
                           { id := 2, word := "MIST", rarity := "SR" }],
          user_collections := [], user_statistics := [], next_id := 10 }
        [({ method := Method.post, authHeader := some "Bearer token",
            body_type := some "DIVINE", body_word := some "LIGHT",
            body_score := some 87 }, 5),
         ({ method := Method.post, authHeader := some "Bearer token",
            body_type := some "REALITY", body_word := some "MIST",
            body_score := some 3 }, 9)]) 7
      = ((([({ method := Method.post, authHeader := some "Bearer token",
               body_type := some "DIVINE", body_word := some "LIGHT",
               body_score := some 87 }, 5),
            ({ method := Method.post, authHeader := some "Bearer token",
               body_type := some "REALITY", body_word := some "MIST",
               body_score := some 3 }, 9)] :
             List (TrackRequest × Nat)).length : Nat) : Int) ∧
    statsViewHS (recordAll
        { supabaseUrl := some "https://example.supabase.co",
          supabaseKey := some "service-role-key", authUser := some 7 }
        { divine_words := [{ id := 1, word := "LIGHT", rarity := "SSR" },
                           { id := 2, word := "MIST", rarity := "SR" }],
          user_collections := [], user_statistics := [], next_id := 10 }
        [({ method := Method.post, authHeader := some "Bearer token",
            body_type := some "DIVINE", body_word := some "LIGHT",
            body_score := some 87 }, 5),
         ({ method := Method.post, authHeader := some "Bearer token",
            body_type := some "REALITY", body_word := some "MIST",
            body_score := some 3 }, 9)]) 7
      = some (JsNum.num
          (([(({ method := Method.post, authHeader := some "Bearer token",
                 body_type := some "REALITY", body_word := some "MIST",
                 body_score := some 3 }, 9) :
                TrackRequest × Nat)].map
              (fun r => r.1.body_score.getD 0)).foldl max
            ((({ method := Method.post, authHeader := some "Bearer token",
                 body_type := some "DIVINE", body_word := some "LIGHT",
                 body_score := some 87 }, 5) :
                TrackRequest × Nat).1.body_score.getD 0))) :=
  claim2_aggregate_totals
    { supabaseUrl := some "https://example.supabase.co",
      supabaseKey := some "service-role-key", authUser := some 7 }
    { divine_words := [{ id := 1, word := "LIGHT", rarity := "SSR" },
                       { id := 2, word := "MIST", rarity := "SR" }],
      user_collections := [], user_statistics := [], next_id := 10 } 7
    ({ method := Method.post, authHeader := some "Bearer token",
       body_type := some "DIVINE", body_word := some "LIGHT",
       body_score := some 87 }, 5)
    [({ method := Method.post, authHeader := some "Bearer token",
        body_type := some "REALITY", body_word := some "MIST",
        body_score := some 3 }, 9)]
    rfl (by decide) (by decide) rfl (by decide)

set_option maxRecDepth 100000 in
/-- Claim C7 (the code diverges from it): the profile reader's completion
percentage is `0` for an empty catalog as claimed, but it is not always
`floor(100 * collected / total)` — the JavaScript source computes
`Math.floor((collected / total) * 100)` in binary64, and at
`collected = 29`, `total = 100` the product rounds to
`28.999999999999996…`, so the code reports 28 while exact floor semantics
give `(100 * 29) / 100 = 29`. -/
theorem claim7_completion_divergence :
    (∀ c, completionPercentJs c 0 = 0) ∧
    completionPercentJs 29 100 = 28 ∧ (100 * 29) / 100 = (29 : ℕ) :=
  ⟨fun c => by simp [completionPercentJs], by decide, by decide⟩

end Unc9
